import Mathlib

/-!
Verification development for the VLESS-over-WebSocket worker in `src/_worker.js`.

Byte buffers (`ArrayBuffer` / `Uint8Array` contents) are modelled as `List Nat`
whose elements are below 256 (the `Uint8Array` invariant; stated as a hypothesis
where a theorem depends on it).  JavaScript `slice` clamps out-of-range indices,
which `List.drop`/`List.take` reproduce; an out-of-range indexed read
(`new Uint8Array(...)[i]` yielding `undefined`) is modelled by `Option`.
A JavaScript exception escaping a function is modelled by an explicit outcome
constructor rather than by partiality.
-/

namespace Claila

/-! ### Hex rendering (`stringify`, `_worker.js` lines 470-472)

`stringify` is `arr.reduce((str, byte) => str + byte.toString(16).padStart(2, '0'), '')`.
`Number.prototype.toString(16)` on a byte value (0..255) yields one or two
lowercase hex digits; `toHexByte` reproduces exactly that for inputs below 256
(larger inputs cannot arise from a `Uint8Array`). -/

/-- The sixteen lowercase hex digit characters, in value order. -/
def lcHexChars : List Char := (List.range 16).map Nat.digitChar

def hexDigit (n : Nat) : Char := lcHexChars.getD n '0'

def toHexByte (b : Nat) : String :=
  if b < 16 then ⟨[hexDigit b]⟩ else ⟨[hexDigit (b / 16), hexDigit (b % 16)]⟩

/-- Model of `byte.toString(16).padStart(2, '0')`. -/
def padHex (b : Nat) : String :=
  if (toHexByte b).length < 2 then "0" ++ toHexByte b else toHexByte b

def stringify (arr : List Nat) : String :=
  arr.foldl (fun str b => str ++ padHex b) ""

/-- Model of the global-regex hyphen removal `userID.replace` call
(`_worker.js` line 202). -/
def removeHyphens (s : String) : String := ⟨s.data.filter (fun c => c ≠ '-')⟩

/-! ### Identity store (`_worker.js` lines 195-223)

`env.VLESS_KV.get(key)` resolves to a string, to `null` (modelled `missing`),
or rejects (modelled `err`; the `catch` block in the source only logs). -/

inductive KVLookup
  | found (v : String)
  | missing
  | err

structure Env where
  vlessKV : Option (String → KVLookup)

/-- Model of the user-validation block of `processVlessHeader`
(`_worker.js` lines 195-216).  Returns `(isValidUser, kvConsulted)`.
Note `if (storedAccount)` is a truthiness test: a stored empty string
does not validate. -/
def checkUser (uuidString userID : String) (env : Env) : Bool × Bool :=
  if uuidString = removeHyphens userID then (true, false)
  else
    match env.vlessKV with
    | none => (false, false)
    | some kv =>
      match kv uuidString with
      | .found v => (decide (v ≠ ""), true)
      | .missing => (false, true)
      | .err => (false, true)

/-! ### Header parse outcomes -/

/-- Failure messages of `processVlessHeader`, by kind:
`tooShort` = 'Invalid data length', `authRejected` = 'Invalid user ID',
`unsupportedCommand c` = 'Unsupported command: c' (payload is the byte read,
`none` when the read was out of range, i.e. `undefined`),
`badAddressType t` = 'Invalid address type: t', `emptyAddress` = 'Address value is empty'. -/
inductive ParseFail
  | tooShort
  | authRejected
  | unsupportedCommand (c : Option Nat)
  | badAddressType (t : Option Nat)
  | emptyAddress
deriving DecidableEq

/-- The `addressValue` computed by the parser, kept as raw bytes / groups.
In the source it is rendered to a string: dotted-decimal join for IPv4,
`TextDecoder` UTF-8 decode for domains, colon-joined hex groups for IPv6. -/
inductive AddrValue
  | ipv4 (bytes : List Nat)
  | domain (bytes : List Nat)
  | ipv6 (groups : List Nat)
deriving DecidableEq

def utf8BOM : List Nat := [239, 187, 191]

/-- Whether the JavaScript string rendering of the address is `''` (falsy),
which triggers the 'Address value is empty' branch (`_worker.js` line 280).
IPv4 `join('.')` is empty iff there are no bytes; UTF-8 decoding with the
default `TextDecoder` yields an empty string iff the input is empty or is
exactly a byte-order mark (which the decoder strips); eight hex groups joined
with ':' are never empty. -/
def AddrValue.isEmptyStr : AddrValue → Bool
  | .ipv4 bs => bs.isEmpty
  | .domain bs => bs.isEmpty || bs == utf8BOM
  | .ipv6 _ => false

structure VlessRequest where
  address : AddrValue
  addressType : Nat
  portRemote : Nat
  rawDataIndex : Nat
  vlessVersion : List Nat
  isUDP : Bool
deriving DecidableEq

/-- Result of running `processVlessHeader`: a success record, a returned
`hasError` object, or a JavaScript exception escaping the function (`thrown`). -/
inductive ParseOutcome
  | ok (r : VlessRequest)
  | fail (k : ParseFail)
  | thrown
deriving DecidableEq

/-- Model of `new DataView(buffer.slice(i, i + 2)).getUint16(0)`:
big-endian 16-bit read; `none` models the `RangeError` thrown when the
clamped slice holds fewer than two bytes. -/
def getUint16 (buf : List Nat) (i : Nat) : Option Nat :=
  match buf[i]?, buf[i + 1]? with
  | some a, some b => some (256 * a + b)
  | _, _ => none

/-- The eight big-endian 16-bit groups of a 16-byte IPv6 address
(`_worker.js` lines 266-271). -/
def groups16 : List Nat → List Nat
  | a :: b :: rest => (256 * a + b) :: groups16 rest
  | _ => []

/-- Shared tail of the parser: the `if (!addressValue)` check followed by the
success object (`_worker.js` lines 280-295). -/
def finishAddress (buf : List Nat) (addr : AddrValue) (atype port rawIdx : Nat)
    (isUDP : Bool) : ParseOutcome :=
  if addr.isEmptyStr then .fail .emptyAddress
  else .ok ⟨addr, atype, port, rawIdx, buf.take 1, isUDP⟩

/-- Port, address type and address parsing (`_worker.js` lines 240-295),
after the command byte at `18 + opt` was read as 1 (`isUDP = false`) or 2
(`isUDP = true`).  The port is `getUint16` at `19 + opt`; a truncated port
field or a truncated IPv6 address field makes the `DataView` read throw. -/
def parseAfterCommand (buf : List Nat) (opt : Nat) (isUDP : Bool) : ParseOutcome :=
  match getUint16 buf (19 + opt) with
  | none => .thrown
  | some port =>
    if buf[21 + opt]? = some 1 then
      finishAddress buf (.ipv4 ((buf.drop (22 + opt)).take 4)) 1 port (22 + opt + 4) isUDP
    else if buf[21 + opt]? = some 2 then
      match buf[22 + opt]? with
      | none => .fail .emptyAddress
      | some L => finishAddress buf (.domain ((buf.drop (23 + opt)).take L)) 2 port (23 + opt + L) isUDP
    else if buf[21 + opt]? = some 3 then
      if ((buf.drop (22 + opt)).take 16).length = 16 then
        finishAddress buf (.ipv6 (groups16 ((buf.drop (22 + opt)).take 16))) 3 port (22 + opt + 16) isUDP
      else .thrown
    else .fail (.badAddressType (buf[21 + opt]?))

/-- Command dispatch (`_worker.js` lines 226-238): the byte at `18 + opt`
selects TCP (1) or UDP (2); anything else — including an out-of-range read,
`undefined` in the source — returns the 'Unsupported command' failure. -/
def parseCommand (buf : List Nat) (opt : Nat) : ParseOutcome :=
  if buf[18 + opt]? = some 1 then parseAfterCommand buf opt false
  else if buf[18 + opt]? = some 2 then parseAfterCommand buf opt true
  else .fail (.unsupportedCommand (buf[18 + opt]?))

/-- Model of `processVlessHeader(vlessBuffer, userID, env)`
(`_worker.js` lines 186-296): length gate, user validation (static UUID
comparison then optional KV lookup), then command / port / address parsing.
The function is pure: it only reads its arguments and allocates its result. -/
def processVlessHeader (buf : List Nat) (userID : String) (env : Env) : ParseOutcome :=
  if buf.length < 24 then .fail .tooShort
  else if (checkUser (stringify ((buf.drop 1).take 16)) userID env).1 then
    parseCommand buf (buf.getD 17 0)
  else .fail .authRejected

/-- The exact condition under which `processVlessHeader` throws (a
`RangeError` escaping from a `DataView` 16-bit read): the buffer passes the
length gate and user validation, the command byte reads as 1 or 2, and then
either the 2-byte port field extends past the end of the buffer, or the
address type is IPv6 (3) and the 16-byte address field extends past the
end. -/
def throwCond (buf : List Nat) (uid : String) (env : Env) : Prop :=
  24 ≤ buf.length ∧
  (checkUser (stringify ((buf.drop 1).take 16)) uid env).1 = true ∧
  (buf[18 + buf.getD 17 0]? = some 1 ∨ buf[18 + buf.getD 17 0]? = some 2) ∧
  (getUint16 buf (19 + buf.getD 17 0) = none ∨
    (buf[21 + buf.getD 17 0]? = some 3 ∧
     ((buf.drop (22 + buf.getD 17 0)).take 16).length ≠ 16))

/-! ### Session layer (`vlessOverWSHandler`, `handleTCPOutBound`,
`remoteSocketToWS`; `_worker.js` lines 76-397)

The model covers the processing of the first WebSocket chunk and the
downstream pump lifecycle, with the WebSocket remaining open.  The
environment supplies, for each possible dial, the list of chunks the remote
socket yields before closing or erroring (`pipeTo` resolves either way, the
trailing `catch` only logs). -/

/-- Destination of a `connect` call: the address parsed from the header, or
the configured `PROXYIP`. -/
inductive DialTarget
  | primaryAddr
  | proxyAddr (ip : String)
deriving DecidableEq

/-- Model of `proxyIP || addressRemote` (`_worker.js` line 333): the empty
string is the only falsy value a string variable can hold. -/
def retryTarget (proxyIP : String) : DialTarget :=
  if proxyIP = "" then .primaryAddr else .proxyAddr proxyIP

/-- One `connect` call together with the byte chunks written to its
writable half, in order. -/
structure Dial where
  target : DialTarget
  writes : List (List Nat)
deriving DecidableEq

/-- Model of `connectAndWrite(address, port)` (`_worker.js` lines 310-329):
dial, then write the VLESS response header, then the residual client data,
both to the outbound socket. -/
def connectAndWrite (target : DialTarget) (hdr raw : List Nat) : Dial :=
  ⟨target, [hdr, raw]⟩

/-- Model of `remoteSocketToWS(remoteSocket, webSocket, retry, log)`
(`_worker.js` lines 365-397): each chunk the remote yields is sent as one
WebSocket frame; `hasIncomingData` is set by the first chunk callback.
Returns the frames sent and whether `retry` is invoked afterwards
(`hasIncomingData === false && retry`). -/
def remoteSocketToWS (down : List (List Nat)) (retryAvailable : Bool) :
    List (List Nat) × Bool :=
  (down, down.isEmpty && retryAvailable)

/-- Model of `retry()` (`_worker.js` lines 331-347): one more
`connectAndWrite` to `proxyIP || addressRemote`, then a downstream pump with
`retry = null`. -/
def retryDial (proxyIP : String) (hdr raw : List Nat) (fallbackDown : List (List Nat)) :
    Dial × List (List Nat) :=
  (connectAndWrite (retryTarget proxyIP) hdr raw, (remoteSocketToWS fallbackDown false).1)

/-- Model of `handleTCPOutBound` (`_worker.js` lines 301-360): primary dial
and write, downstream pump with `retry` available, and the one-shot retry
when the pump ended without incoming data. -/
def handleTCPOutBound (proxyIP : String) (hdr raw : List Nat)
    (primaryDown fallbackDown : List (List Nat)) : List Dial × List (List Nat) :=
  let d1 := connectAndWrite .primaryAddr hdr raw
  let pump1 := remoteSocketToWS primaryDown true
  if pump1.2 then
    let rd := retryDial proxyIP hdr raw fallbackDown
    ([d1, rd.1], pump1.1 ++ rd.2)
  else
    ([d1], pump1.1)

/-- Errors thrown out of the first-chunk `write` handler
(`_worker.js` lines 105-163). -/
inductive SessionError
  | parseError (k : ParseFail)
  | parserThrew
  | udpPortNotDNS
deriving DecidableEq

structure SessionEnv where
  userID : String
  env : Env
  proxyIP : String
  primaryDown : List (List Nat)
  fallbackDown : List (List Nat)

/-- Observable behaviour of a session on its first chunk: the dials made
(with the chunks written to each outbound socket), the frames sent
downstream on the WebSocket, the error thrown from the handler if any, and
whether the handler returned on the `isDns` path, leaving the session open
with no outbound connection (`dnsStall`). -/
structure SessionTrace where
  dials : List Dial
  wsSent : List (List Nat)
  error : Option SessionError
  dnsStall : Bool
deriving DecidableEq

/-- Model of the first-chunk `write` handler of `vlessOverWSHandler`
(`_worker.js` lines 105-163): parse; on failure throw; UDP to a port other
than 53 throws; UDP to port 53 sets `isDns` and returns before dialing;
otherwise build `vlessResponseHeader = [version[0], 0]`,
`rawClientData = chunk.slice(rawDataIndex)` and run `handleTCPOutBound`. -/
def sessionStep (chunk : List Nat) (se : SessionEnv) : SessionTrace :=
  match processVlessHeader chunk se.userID se.env with
  | .thrown => ⟨[], [], some .parserThrew, false⟩
  | .fail k => ⟨[], [], some (.parseError k), false⟩
  | .ok r =>
    if r.isUDP then
      if r.portRemote = 53 then ⟨[], [], none, true⟩
      else ⟨[], [], some .udpPortNotDNS, false⟩
    else
      let hdr := [r.vlessVersion.headD 0, 0]
      let raw := chunk.drop r.rawDataIndex
      let res := handleTCPOutBound se.proxyIP hdr raw se.primaryDown se.fallbackDown
      ⟨res.1, res.2, none, false⟩

/-! ### Concrete inputs used by witnesses and counterexamples -/

def envNone : Env := ⟨none⟩

def happyUID : String := "01020304-0506-0708-090a-0b0c0d0e0f10"

def id16 : List Nat := [1, 2, 3, 4, 5, 6, 7, 8, 9, 10, 11, 12, 13, 14, 15, 16]

def hello : List Nat := [72, 69, 76, 76, 79]

/-- Scenario 1 of spec section 8: version 0, the identifier above, no
options, TCP, port 80, IPv4 127.0.0.1, payload 'HELLO'. -/
def happyChunk : List Nat :=
  [0] ++ id16 ++ [0, 1, 0, 80, 1, 127, 0, 0, 1] ++ hello

def happyReq : VlessRequest :=
  ⟨.ipv4 [127, 0, 0, 1], 1, 80, 26, [0], false⟩

/-- Same header but command UDP (2) and port 53. -/
def udp53Chunk : List Nat :=
  [0] ++ id16 ++ [0, 2, 0, 53, 1, 8, 8, 8, 8]

/-- Same header but command UDP (2) and port 4433. -/
def udp4433Chunk : List Nat :=
  [0] ++ id16 ++ [0, 2, 17, 81, 1, 8, 8, 8, 8]

def uidZero : String := "00000000-0000-0000-0000-000000000000"

/-- A 24-byte buffer with a valid (all-zero) identifier and `optLength = 5`,
placing the command byte (value 1, TCP) at the last index, so the 2-byte
port read starts past the end of the buffer. -/
def truncatedPortChunk : List Nat :=
  [0] ++ List.replicate 16 0 ++ [5] ++ [0, 0, 0, 0, 0] ++ [1]

def uidUpper : String := "A1020304-0506-0708-090A-0B0C0D0E0F10"

/-! ### Helper lemmas about the hex rendering -/

theorem hexDigit_mem (n : Nat) : hexDigit n ∈ lcHexChars := by
  unfold hexDigit
  rcases h : lcHexChars[n]? with _ | c
  · rw [List.getD_eq_getElem?_getD, h]
    decide
  · rw [List.getD_eq_getElem?_getD, h]
    exact List.getElem?_mem h

theorem padHex_length (b : Nat) : (padHex b).length = 2 := by
  unfold padHex toHexByte
  by_cases h : b < 16 <;> simp [h, String.length, String.append]

theorem padHex_chars (b : Nat) : ∀ c ∈ (padHex b).data, c ∈ lcHexChars := by
  intro c hc
  unfold padHex toHexByte at hc
  by_cases h : b < 16 <;> simp [h, String.append] at hc
  · rcases hc with rfl | rfl
    · decide
    · exact hexDigit_mem b
  · rcases hc with rfl | rfl
    · exact hexDigit_mem (b / 16)
    · exact hexDigit_mem (b % 16)

theorem stringify_loop_chars (arr : List Nat) (init : String) :
    ∀ c ∈ (arr.foldl (fun str b => str ++ padHex b) init).data,
      c ∈ init.data ∨ c ∈ lcHexChars := by
  induction arr generalizing init with
  | nil => intro c hc; exact Or.inl hc
  | cons b bs ih =>
    intro c hc
    rcases ih (init ++ padHex b) c hc with h | h
    · rw [String.data_append] at h
      rcases List.mem_append.mp h with h | h
      · exact Or.inl h
      · exact Or.inr (padHex_chars b c h)
    · exact Or.inr h

theorem stringify_chars (arr : List Nat) : ∀ c ∈ (stringify arr).data, c ∈ lcHexChars := by
  intro c hc
  rcases stringify_loop_chars arr "" c hc with h | h
  · simp at h
  · exact h

theorem stringify_loop_length (arr : List Nat) (init : String) :
    (arr.foldl (fun str b => str ++ padHex b) init).length = init.length + 2 * arr.length := by
  induction arr generalizing init with
  | nil => simp
  | cons b bs ih =>
    rw [List.foldl_cons, ih, String.length_append, padHex_length, List.length_cons]
    omega

theorem stringify_length (arr : List Nat) : (stringify arr).length = 2 * arr.length := by
  unfold stringify
  rw [stringify_loop_length, String.length_empty, Nat.zero_add]

/-! ### Helper lemmas about the identity check and the parser -/

theorem checkUser_eq (key uid : String) (kv : String → KVLookup) :
    checkUser key uid ⟨some kv⟩ =
      if key = removeHyphens uid then (true, false)
      else
        match kv key with
        | .found v => (decide (v ≠ ""), true)
        | .missing => (false, true)
        | .err => (false, true) := rfl

theorem checkUser_noKV (key uid : String) :
    checkUser key uid ⟨none⟩ =
      if key = removeHyphens uid then (true, false) else (false, false) := rfl

theorem finishAddress_ne_thrown (buf : List Nat) (addr : AddrValue)
    (atype port rawIdx : Nat) (u : Bool) :
    finishAddress buf addr atype port rawIdx u ≠ .thrown := by
  unfold finishAddress
  split <;> simp

theorem finishAddress_ok (buf : List Nat) (addr : AddrValue) (atype port rawIdx : Nat)
    (u : Bool) (r : VlessRequest)
    (h : finishAddress buf addr atype port rawIdx u = .ok r) :
    r = ⟨addr, atype, port, rawIdx, buf.take 1, u⟩ := by
  unfold finishAddress at h
  split at h
  · simp at h
  · exact (ParseOutcome.ok.inj h).symm

theorem parseAfterCommand_ok (buf : List Nat) (opt : Nat) (u : Bool) (r : VlessRequest)
    (h : parseAfterCommand buf opt u = .ok r) :
    getUint16 buf (19 + opt) = some r.portRemote ∧
    r.rawDataIndex = 22 + opt +
        (if r.addressType = 1 then 4
         else if r.addressType = 3 then 16
         else buf.getD (22 + opt) 0) +
        (if r.addressType = 2 then 1 else 0) := by
  unfold parseAfterCommand at h
  cases hg : getUint16 buf (19 + opt) with
  | none => rw [hg] at h; simp at h
  | some port =>
    rw [hg] at h
    split_ifs at h with h1 h2 h3 hlen
    · have heq := finishAddress_ok _ _ _ _ _ _ _ h
      subst heq
      exact ⟨rfl, by norm_num⟩
    · cases hL : buf[22 + opt]? with
      | none => rw [hL] at h; simp at h
      | some L =>
        rw [hL] at h
        have heq := finishAddress_ok _ _ _ _ _ _ _ h
        subst heq
        refine ⟨rfl, ?_⟩
        simp [List.getD_eq_getElem?_getD, hL]
        omega
    · have heq := finishAddress_ok _ _ _ _ _ _ _ h
      subst heq
      exact ⟨rfl, by norm_num⟩

theorem parseAfterCommand_thrown_iff (buf : List Nat) (opt : Nat) (u : Bool) :
    parseAfterCommand buf opt u = .thrown ↔
      (getUint16 buf (19 + opt) = none ∨
       (buf[21 + opt]? = some 3 ∧ ((buf.drop (22 + opt)).take 16).length ≠ 16)) := by
  unfold parseAfterCommand
  cases hg : getUint16 buf (19 + opt) with
  | none => simp
  | some port =>
    split_ifs with h1 h2 h3 hlen
    · refine ⟨fun hx => absurd hx (finishAddress_ne_thrown _ _ _ _ _ _), fun hx => ?_⟩
      rcases hx with hx | hx
      · exact absurd hx (by simp)
      · exact absurd (h1.symm.trans hx.1) (by simp)
    · constructor
      · cases hL : buf[22 + opt]? with
        | none => intro hx; simp at hx
        | some L =>
          intro hx
          simp only [] at hx
          exact absurd hx (finishAddress_ne_thrown _ _ _ _ _ _)
      · intro hx
        rcases hx with hx | hx
        · exact absurd hx (by simp)
        · exact absurd (h2.symm.trans hx.1) (by simp)
    · refine ⟨fun hx => absurd hx (finishAddress_ne_thrown _ _ _ _ _ _), fun hx => ?_⟩
      rcases hx with hx | hx
      · exact absurd hx (by simp)
      · exact absurd hlen hx.2
    · exact ⟨fun _ => Or.inr ⟨h3, hlen⟩, fun _ => rfl⟩
    · refine ⟨fun hx => absurd hx (by simp), fun hx => ?_⟩
      rcases hx with hx | hx
      · exact absurd hx (by simp)
      · exact absurd hx.1 h3

theorem parseCommand_thrown_iff (buf : List Nat) (opt : Nat) :
    parseCommand buf opt = .thrown ↔
      ((buf[18 + opt]? = some 1 ∨ buf[18 + opt]? = some 2) ∧
       (getUint16 buf (19 + opt) = none ∨
        (buf[21 + opt]? = some 3 ∧ ((buf.drop (22 + opt)).take 16).length ≠ 16))) := by
  unfold parseCommand
  split_ifs with h1 h2
  · rw [parseAfterCommand_thrown_iff]
    exact ⟨fun hx => ⟨Or.inl h1, hx⟩, fun hx => hx.2⟩
  · rw [parseAfterCommand_thrown_iff]
    exact ⟨fun hx => ⟨Or.inr h2, hx⟩, fun hx => hx.2⟩
  · refine ⟨fun hx => absurd hx (by simp), fun hx => ?_⟩
    rcases hx.1 with h | h
    · exact absurd h h1
    · exact absurd h h2

/-! ### Claim theorems -/

/-- C5: for every input buffer shorter than 24 bytes, the parser returns the
MalformedHeader/TooShort failure ('Invalid data length') and never a parsed
request. -/
theorem C5_short_buffer_rejected (buf : List Nat) (uid : String) (env : Env)
    (h : buf.length < 24) : processVlessHeader buf uid env = .fail .tooShort := by
  simp [processVlessHeader, h]

theorem C5_short_buffer_witness :
    ([] : List Nat).length < 24 ∧ processVlessHeader [] happyUID envNone = .fail .tooShort :=
  ⟨by decide, C5_short_buffer_rejected [] happyUID envNone (by decide)⟩

/-- C1 (code bug): on the happy-path IPv4 session the first chunk written to
the outbound socket is the 2-byte VLESS response header `[0, 0]`, not the
residual client payload `HELLO`; the concatenation of outbound bytes is the
header followed by the residual payload, so extra bytes are interleaved
before the residual payload, contradicting the claim. -/
theorem C1_response_header_corrupts_outbound :
    (sessionStep happyChunk ⟨happyUID, envNone, "", [[9]], []⟩).dials =
      [⟨.primaryAddr, [[0, 0], hello]⟩] ∧
    (((sessionStep happyChunk ⟨happyUID, envNone, "", [[9]], []⟩).dials.headD
        ⟨.primaryAddr, []⟩).writes.flatten ≠ happyChunk.drop 26) := by
  decide

/-- C2 (code bug): on a session where the remote socket yields the chunk
`[1, 2, 3]`, the frames sent downstream are exactly the remote chunks; no
sent byte sequence begins with the response header `{version, 0x00}`
(version is 0 here), so the count of such sequences is 0, not the claimed
exactly-one. -/
theorem C2_response_header_never_sent_downstream :
    (sessionStep happyChunk ⟨happyUID, envNone, "", [[1, 2, 3]], []⟩).wsSent = [[1, 2, 3]] ∧
    ((sessionStep happyChunk ⟨happyUID, envNone, "", [[1, 2, 3]], []⟩).wsSent.filter
        (fun f => f.take 2 == [0, 0])).length = 0 := by
  decide

/-- C6 (code bug): a valid UDP request to port 53 makes the handler return
with no dial, no downstream frame and no error, leaving the session open
without ever forwarding bytes (`dnsStall`), instead of rejecting it cleanly;
a UDP request to port 4433 does throw the 'UDP proxy only supported for
DNS (port 53)' error. -/
theorem C6_udp53_stalls_session :
    sessionStep udp53Chunk ⟨happyUID, envNone, "", [], []⟩ = ⟨[], [], none, true⟩ ∧
    sessionStep udp4433Chunk ⟨happyUID, envNone, "", [], []⟩ =
      ⟨[], [], some .udpPortNotDNS, false⟩ := by
  decide

/-- C3 (counterexample): a 24-byte buffer with a valid identifier whose
`optLength` of 5 puts the TCP command byte at the last index makes the
2-byte big-endian port read start past the end of the buffer, and the
`DataView` read throws a RangeError escaping the parser, contradicting the
claim that the parser never throws. -/
theorem C3_parse_can_throw :
    processVlessHeader truncatedPortChunk uidZero envNone = .thrown := by
  decide

/-- C3 (amended): the parser is a pure function of its inputs (it mutates
nothing); on every input buffer it returns either a parsed request or a
failure with kind in {TooShort, AuthRejected, UnsupportedCommand,
BadAddressType, EmptyAddress}, except that a JavaScript exception escapes it
exactly when `throwCond` holds: the command byte reads as 1 or 2 and the
port field, or (for address type IPv6) the 16-byte address field, extends
past the end of the buffer. -/
theorem C3_parse_throw_characterization (buf : List Nat) (uid : String) (env : Env) :
    processVlessHeader buf uid env = .thrown ↔ throwCond buf uid env := by
  unfold processVlessHeader throwCond
  split_ifs with h1 h2
  · exact ⟨fun hx => absurd hx (by simp), fun hx => absurd hx.1 (by omega)⟩
  · rw [parseCommand_thrown_iff]
    exact ⟨fun hx => ⟨Nat.not_lt.mp h1, h2, hx.1, hx.2⟩, fun hx => ⟨hx.2.2.1, hx.2.2.2⟩⟩
  · exact ⟨fun hx => absurd hx (by simp), fun hx => absurd hx.2.1 h2⟩

/-- C4: for every buffer the parser accepts, the port is the unsigned
16-bit big-endian value at offset `19 + optionsLength`, and `payloadOffset`
(`rawDataIndex`) equals `22 + optionsLength + addressLength + 1` for domain
names (where `addressLength` is the value of the 1-byte length prefix at
`22 + optionsLength`) and `22 + optionsLength + addressLength` otherwise
(with `addressLength` 4 for IPv4 and 16 for IPv6). -/
theorem C4_payload_offset_and_port (buf : List Nat) (uid : String) (env : Env)
    (r : VlessRequest) (h : processVlessHeader buf uid env = .ok r) :
    getUint16 buf (19 + buf.getD 17 0) = some r.portRemote ∧
    r.rawDataIndex = 22 + buf.getD 17 0 +
        (if r.addressType = 1 then 4
         else if r.addressType = 3 then 16
         else buf.getD (22 + buf.getD 17 0) 0) +
        (if r.addressType = 2 then 1 else 0) := by
  unfold processVlessHeader at h
  by_cases h1 : buf.length < 24
  · rw [if_pos h1] at h
    exact absurd h (by simp)
  · rw [if_neg h1] at h
    by_cases h2 : (checkUser (stringify ((buf.drop 1).take 16)) uid env).1 = true
    · rw [if_pos h2] at h
      unfold parseCommand at h
      by_cases hc1 : buf[18 + buf.getD 17 0]? = some 1
      · rw [if_pos hc1] at h
        exact parseAfterCommand_ok _ _ _ _ h
      · rw [if_neg hc1] at h
        by_cases hc2 : buf[18 + buf.getD 17 0]? = some 2
        · rw [if_pos hc2] at h
          exact parseAfterCommand_ok _ _ _ _ h
        · rw [if_neg hc2] at h
          exact absurd h (by simp)
    · rw [if_neg h2] at h
      exact absurd h (by simp)

theorem C4_payload_offset_witness :
    getUint16 happyChunk (19 + happyChunk.getD 17 0) = some happyReq.portRemote ∧
    happyReq.rawDataIndex = 22 + happyChunk.getD 17 0 +
        (if happyReq.addressType = 1 then 4
         else if happyReq.addressType = 3 then 16
         else happyChunk.getD (22 + happyChunk.getD 17 0) 0) +
        (if happyReq.addressType = 2 then 1 else 0) :=
  C4_payload_offset_and_port happyChunk happyUID envNone happyReq (by decide)

/-- C7 (counterexample): with no fallback destination configured
(`proxyIP = ''`) and a primary connection that yields no downstream bytes,
the session performs a second dial, and that dial targets the original
destination (because of the falsy-coalescing `proxyIP || addressRemote`),
contradicting the claim that no second dial happens. -/
theorem C7_no_proxy_redials_original :
    (sessionStep happyChunk ⟨happyUID, envNone, "", [], []⟩).dials.map Dial.target =
      [.primaryAddr, .primaryAddr] := by
  decide

/-- C7 (amended): when no fallback destination is configured
(`proxyIP = ''`) and the fallback decision is reached (the first chunk was
accepted as TCP and the primary connection yielded no downstream chunk),
the session performs exactly one additional dial, and that dial targets the
original destination on the original port — the `proxyIP || addressRemote`
coalescing re-dials the parsed address — rather than aborting without a
second dial. -/
theorem C7_fallback_dials_original_when_unset (chunk : List Nat) (uid : String) (env : Env)
    (fd : List (List Nat)) (r : VlessRequest)
    (hok : processVlessHeader chunk uid env = .ok r) (hudp : r.isUDP = false) :
    (sessionStep chunk ⟨uid, env, "", [], fd⟩).dials.map Dial.target =
      [.primaryAddr, .primaryAddr] := by
  simp [sessionStep, hok, hudp, handleTCPOutBound, remoteSocketToWS, retryDial,
    connectAndWrite, retryTarget]

theorem C7_fallback_witness :
    (sessionStep happyChunk ⟨happyUID, envNone, "", [], [[7]]⟩).dials.map Dial.target =
      [.primaryAddr, .primaryAddr] :=
  C7_fallback_dials_original_when_unset happyChunk happyUID envNone [[7]] happyReq
    (by decide) (by decide)

/-- C8: if a session makes a second (fallback) dial at all, then the
downstream pump of the primary connection ended while `hasIncomingData` was
still false (the primary socket yielded no chunk), and the total number of
dials is exactly two — the fallback is attempted at most once, and after it
the session never falls back again (the retry pump runs with `retry`
unavailable). -/
theorem C8_fallback_at_most_once (chunk : List Nat) (se : SessionEnv)
    (h : 2 ≤ (sessionStep chunk se).dials.length) :
    se.primaryDown = [] ∧ (sessionStep chunk se).dials.length = 2 := by
  cases hp : processVlessHeader chunk se.userID se.env with
  | thrown => simp [sessionStep, hp] at h
  | fail k => simp [sessionStep, hp] at h
  | ok r =>
    by_cases hu : r.isUDP
    · by_cases hport : r.portRemote = 53 <;> simp [sessionStep, hp, hu, hport] at h
    · by_cases hpd : se.primaryDown.isEmpty
      · refine ⟨List.isEmpty_iff.mp hpd, ?_⟩
        simp [sessionStep, hp, hu, handleTCPOutBound, remoteSocketToWS, retryDial,
          connectAndWrite, hpd]
      · simp [sessionStep, hp, hu, handleTCPOutBound, remoteSocketToWS, hpd] at h

theorem C8_fallback_witness :
    2 ≤ (sessionStep happyChunk ⟨happyUID, envNone, "prx", [], []⟩).dials.length ∧
    ((⟨happyUID, envNone, "prx", [], []⟩ : SessionEnv).primaryDown = [] ∧
      (sessionStep happyChunk ⟨happyUID, envNone, "prx", [], []⟩).dials.length = 2) :=
  ⟨by decide,
   C8_fallback_at_most_once happyChunk ⟨happyUID, envNone, "prx", [], []⟩ (by decide)⟩

/-- C9 (counterexample): a stored KV value that is the empty string is
non-null, yet the truthiness test `if (storedAccount)` rejects it: with a KV
backend returning the empty string for every key, a request whose identifier
does not match the static UUID is rejected with 'Invalid user ID'. -/
theorem C9_kv_empty_value_rejected :
    (checkUser (stringify id16) uidZero ⟨some (fun _ => .found "")⟩).1 = false ∧
    processVlessHeader happyChunk uidZero ⟨some (fun _ => .found "")⟩ = .fail .authRejected := by
  decide

/-- C9 (amended): for every buffer passing the length gate, the identity
check uses the 32-character lowercase-hex key formed from the 16 identifier
bytes; the KV backend is consulted only when the static comparison fails; a
KV lookup error never accepts; any non-null, non-empty stored value accepts
(amendment: the truthiness test rejects a stored empty string); and a
rejected identifier yields the AuthRejected failure and no outbound dial. -/
theorem C9_identity_store_contract (buf : List Nat) (uid : String)
    (kv : String → KVLookup) (hl : 24 ≤ buf.length) :
    (stringify ((buf.drop 1).take 16)).length = 32 ∧
    (∀ c ∈ (stringify ((buf.drop 1).take 16)).data, c ∈ lcHexChars) ∧
    (stringify ((buf.drop 1).take 16) = removeHyphens uid →
      checkUser (stringify ((buf.drop 1).take 16)) uid ⟨some kv⟩ = (true, false)) ∧
    (kv (stringify ((buf.drop 1).take 16)) = .err →
      (checkUser (stringify ((buf.drop 1).take 16)) uid ⟨some kv⟩).1 = true →
        stringify ((buf.drop 1).take 16) = removeHyphens uid) ∧
    (∀ v, kv (stringify ((buf.drop 1).take 16)) = .found v → v ≠ "" →
        (checkUser (stringify ((buf.drop 1).take 16)) uid ⟨some kv⟩).1 = true) ∧
    ((checkUser (stringify ((buf.drop 1).take 16)) uid ⟨some kv⟩).1 = false →
      processVlessHeader buf uid ⟨some kv⟩ = .fail .authRejected ∧
      ∀ pip pd fd, (sessionStep buf ⟨uid, ⟨some kv⟩, pip, pd, fd⟩).dials = []) := by
  have h16 : ((buf.drop 1).take 16).length = 16 := by
    rw [List.length_take, List.length_drop]
    omega
  refine ⟨?_, stringify_chars _, ?_, ?_, ?_, ?_⟩
  · rw [stringify_length, h16]
  · intro he
    rw [checkUser_eq, if_pos he]
  · intro herr htrue
    by_contra hne
    rw [checkUser_eq, if_neg hne, herr] at htrue
    simp at htrue
  · intro v hkv hv
    by_cases hne : stringify ((buf.drop 1).take 16) = removeHyphens uid
    · rw [checkUser_eq, if_pos hne]
    · rw [checkUser_eq, if_neg hne, hkv]
      simp [hv]
  · intro hfalse
    have hparse : processVlessHeader buf uid ⟨some kv⟩ = .fail .authRejected := by
      unfold processVlessHeader
      rw [if_neg (show ¬ buf.length < 24 by omega)]
      rw [if_neg (show ¬ ((checkUser (stringify ((buf.drop 1).take 16)) uid
        ⟨some kv⟩).1 = true) by rw [hfalse]; simp)]
    refine ⟨hparse, ?_⟩
    intro pip pd fd
    simp [sessionStep, hparse]

theorem C9_identity_witness :
    (stringify ((happyChunk.drop 1).take 16)).length = 32 :=
  (C9_identity_store_contract happyChunk happyUID (fun _ => .missing) (by decide)).1

/-- C10: the static identifier check is exact string equality between the
lowercase hex rendering of the 16 inbound identifier bytes and the
configured UUID with hyphens removed; since every character the rendering
produces is a lowercase hex digit, a configured UUID containing an
uppercase hex digit can never match statically, and such a session can be
accepted only through the dynamic KV path (a non-null, non-empty stored
value). -/
theorem C10_uppercase_uuid_static_never_matches (uid : String) (c : Char)
    (hc : c ∈ uid.data) (hup : c ∈ (['A', 'B', 'C', 'D', 'E', 'F'] : List Char))
    (idBytes : List Nat) :
    stringify idBytes ≠ removeHyphens uid ∧
    (∀ env : Env, (checkUser (stringify idBytes) uid env).1 = true →
      ∃ kv v, env.vlessKV = some kv ∧ kv (stringify idBytes) = .found v ∧ v ≠ "") := by
  have hcnot : c ∉ lcHexChars := by
    fin_cases hup <;> decide
  have hcdash : (c ≠ '-') = True := by
    fin_cases hup <;> decide
  have hmem : c ∈ (removeHyphens uid).data := by
    unfold removeHyphens
    exact List.mem_filter.mpr ⟨hc, by simp [hcdash]⟩
  have hne : stringify idBytes ≠ removeHyphens uid := by
    intro heq
    exact hcnot (stringify_chars idBytes c (heq ▸ hmem))
  refine ⟨hne, ?_⟩
  intro env hv
  obtain ⟨okv⟩ := env
  cases okv with
  | none =>
    rw [checkUser_noKV, if_neg hne] at hv
    simp at hv
  | some kv =>
    rw [checkUser_eq, if_neg hne] at hv
    cases hkv : kv (stringify idBytes) with
    | found v =>
      rw [hkv] at hv
      simp at hv
      exact ⟨kv, v, rfl, hkv, hv⟩
    | missing =>
      rw [hkv] at hv
      simp at hv
    | err =>
      rw [hkv] at hv
      simp at hv

theorem C10_uppercase_witness :
    stringify id16 ≠ removeHyphens uidUpper :=
  (C10_uppercase_uuid_static_never_matches uidUpper 'A' (by decide) (by decide) id16).1

end Claila
